import Mathlib

/-!
Shallow embedding of the completeness-scoring engine of the
multi-agent-prd-reviewer repository (src/agents/validator_agent.py):
the `ValidatorAgent.validate` scoring loop and `ValidatorAgent.format_report`
bucket classifier, together with proofs of the spec's claims about them.

Modelling conventions:
* Python strings are Lean `String` (a list of characters); `str.lower()` is
  modelled character-wise with `Char.toLower`, which performs the ASCII case
  folding exercised by the rubrics and documents under consideration.
* Python's substring test `needle in hay` is `containsSeq`, defined below by
  structural recursion; note `"" in s` is true in Python and likewise here.
* The scoring mapping (`self.scoring`, a dict read from YAML) is an
  association list `List (String × Nat)`; `dict.get(key, 0)` is `scoringGet`.
  Per the data model, severity weights are non-negative integers.
* `validate` renders `int(total_score / max_score * 100)` as the exact
  truncation `total_score * 100 / max_score`.  Python, however, evaluates
  that expression in IEEE-754 double precision, which does not always agree
  with exact truncation; the double-precision evaluation is modelled
  separately and faithfully by `roundRatToDouble` / `pyFloatScorePct` below
  (53-bit round-to-nearest-even, exponent range unbounded — exact for all
  values in the doubles' normal range), and the two evaluations are compared
  where the distinction matters.
-/

namespace PRD

/-- `startsWithSeq hay nd` : the character sequence `nd` is an initial run of
`hay`. -/
def startsWithSeq : List Char → List Char → Bool
  | _, [] => true
  | [], _ :: _ => false
  | a :: hay, b :: nd => a == b && startsWithSeq hay nd

/-- `containsSeq hay nd` : the character sequence `nd` occurs contiguously
somewhere inside `hay` (Python's `nd in hay`). -/
def containsSeq : List Char → List Char → Bool
  | [], nd => nd.isEmpty
  | a :: hay, nd => startsWithSeq (a :: hay) nd || containsSeq hay nd

/-- Python `s.lower()`, modelled character-wise. -/
def strLower (s : String) : String := ⟨s.data.map Char.toLower⟩

/-- Python substring membership `needle in hay` on strings. -/
def strContainsSub (hay needle : String) : Bool := containsSeq hay.data needle.data

/-- One section of the rubric template (an entry of `template['sections']`). -/
structure RubricSection where
  name : String
  required : Bool
  severity : String
  keywords : List String
deriving DecidableEq, Repr

/-- Result from validating a single section (dataclass `ValidationResult`). -/
structure ValidationResult where
  section_name : String
  required : Bool
  found : Bool
  severity : String
  keywords_found : List String
  score : Nat
deriving DecidableEq, Repr

/-- `self.scoring.get(key, 0)` : dictionary lookup with default `0`. -/
def scoringGet (scoring : List (String × Nat)) (key : String) : Nat :=
  match scoring.lookup key with
  | some w => w
  | none => 0

/-- The constructed weight key `f"{severity}_weight"`. -/
def weightKey (severity : String) : String := severity ++ "_weight"

/-- The weight the scoring mapping assigns to a section's severity tier. -/
def sectionWeight (scoring : List (String × Nat)) (s : RubricSection) : Nat :=
  scoringGet scoring (weightKey s.severity)

/-- The body of the per-section loop in `ValidatorAgent.validate`: keyword
detection, `found`, and the section score. -/
def checkSection (scoring : List (String × Nat)) (prd_lower : String)
    (s : RubricSection) : ValidationResult :=
  let keywords_found := s.keywords.filter (fun kw => strContainsSub prd_lower (strLower kw))
  let found := decide (0 < keywords_found.length)
  let section_weight := sectionWeight scoring s
  let section_score := if found then section_weight else 0
  { section_name := s.name, required := s.required, found := found,
    severity := s.severity, keywords_found := keywords_found, score := section_score }

/-- The running total `total_score`: sum of per-section scores. -/
def earnedTotal (results : List ValidationResult) : Nat :=
  (results.map (fun r => r.score)).sum

/-- The running total `max_score`: sum of severity weights over required
sections. -/
def possibleTotal (scoring : List (String × Nat)) (sections : List RubricSection) : Nat :=
  (sections.map (fun s => if s.required then sectionWeight scoring s else 0)).sum

/-- `ValidatorAgent.validate`: scores `prd_text` against the template's
sections and scoring weights, returning the per-section results and the
overall score. -/
def validate (scoring : List (String × Nat)) (sections : List RubricSection)
    (prd_text : String) : List ValidationResult × Nat :=
  let prd_lower := strLower prd_text
  let results := sections.map (checkSection scoring prd_lower)
  let total_score := earnedTotal results
  let max_score := possibleTotal scoring sections
  let overall_score := if max_score > 0 then total_score * 100 / max_score else 0
  (results, overall_score)

/-- The dictionary returned by `ValidatorAgent.format_report`. -/
structure Report where
  score : Nat
  status : String
  status_emoji : String
  missing_critical : List String
  missing_high : List String
  missing_medium : List String
  found_sections : List String
  total_sections : Nat
  found_count : Nat
  missing_count : Nat
deriving DecidableEq, Repr

/-- `ValidatorAgent.format_report`: categorizes results into buckets and
derives the status label from the score. -/
def format_report (results : List ValidationResult) (score : Nat) : Report :=
  let missing_critical := results.filter
    (fun r => !r.found && r.required && r.severity == "critical")
  let missing_high := results.filter
    (fun r => !r.found && r.required && r.severity == "high")
  let missing_medium := results.filter
    (fun r => !r.found && r.severity == "medium")
  let found := results.filter (fun r => r.found)
  let status := if score ≥ 90 then "READY FOR REVIEW"
    else if score ≥ 70 then "NEEDS IMPROVEMENT" else "NOT READY"
  let status_emoji := if score ≥ 90 then "✅" else if score ≥ 70 then "⚠️" else "❌"
  { score := score
    status := status
    status_emoji := status_emoji
    missing_critical := missing_critical.map (fun r => r.section_name)
    missing_high := missing_high.map (fun r => r.section_name)
    missing_medium := missing_medium.map (fun r => r.section_name)
    found_sections := found.map (fun r => r.section_name)
    total_sections := results.length
    found_count := found.length
    missing_count := results.length - found.length }

/-! ### Double-precision evaluation of the score expression

`validator_agent.py` line 98 computes `int((total_score / max_score * 100))`
with Python's float division: the quotient is the IEEE-754 double nearest to
the exact ratio, the product with `100` is again rounded to nearest double,
and `int` truncates toward zero.  The following executable model reproduces
that arithmetic exactly (53-bit significands, round to nearest with ties to
even; the exponent is left unbounded, which coincides with IEEE-754 binary64
for all values in the normal range). -/

/-- Fuel-driven floor of the base-2 logarithm (kernel-reducible). -/
def log2fuel : Nat → Nat → Nat
  | 0, _ => 0
  | fuel + 1, n => if n < 2 then 0 else log2fuel fuel (n / 2) + 1

/-- `natLog2 n` is the floor of the base-2 logarithm of `n` (for `n ≥ 1`). -/
def natLog2 (n : Nat) : Nat := log2fuel n n

/-- Round the non-negative rational `a / b` to double precision: returns
`(n, e)` representing the value `n * 2 ^ e`, where `n` is the 53-bit
significand obtained by round-to-nearest, ties to even.  The initial shift
`s` is estimated from the operands' logarithms so the scaled quotient lands
near `[2^52, 2^53)`, then corrected by at most one doubling per side (a
second, defensive correction is a no-op); the final rounding inspects the
exact remainder. -/
def roundRatToDouble (a b : Nat) : Nat × Int :=
  if a = 0 ∨ b = 0 then (0, 0) else
  let s : Int := 52 + (natLog2 b : Int) - (natLog2 a : Int)
  let A1 := a * 2 ^ (max s 0).toNat
  let B1 := b * 2 ^ (max (-s) 0).toNat
  let A2 := if A1 / B1 < 2 ^ 52 then A1 * 2 else A1
  let s2 := if A1 / B1 < 2 ^ 52 then s + 1 else s
  let A3 := if A2 / B1 < 2 ^ 52 then A2 * 2 else A2
  let s3 := if A2 / B1 < 2 ^ 52 then s2 + 1 else s2
  let B2 := if 2 ^ 53 ≤ A3 / B1 then B1 * 2 else B1
  let s4 := if 2 ^ 53 ≤ A3 / B1 then s3 - 1 else s3
  let B3 := if 2 ^ 53 ≤ A3 / B2 then B2 * 2 else B2
  let s5 := if 2 ^ 53 ≤ A3 / B2 then s4 - 1 else s4
  let q := A3 / B3
  let r := A3 % B3
  let n := if B3 < 2 * r then q + 1 else if 2 * r < B3 then q else q + q % 2
  (n, -s5)

/-- Python's `int((t / m * 100))` evaluated in double precision: round `t / m`
to the nearest double, multiply exactly by `100` and round again to the
nearest double, then truncate toward zero.  (Cross-validated against CPython
on exhaustive small ranges and random large operands.) -/
def pyFloatScorePct (t m : Nat) : Nat :=
  let d := roundRatToDouble t m
  let d2 := if 0 ≤ d.2 then roundRatToDouble (d.1 * 100 * 2 ^ d.2.toNat) 1
    else roundRatToDouble (d.1 * 100) (2 ^ (-d.2).toNat)
  if 0 ≤ d2.2 then d2.1 * 2 ^ d2.2.toNat else d2.1 / 2 ^ (-d2.2).toNat

/-! ### Helper lemmas about the embedded operations -/

/-- `startsWithSeq hay nd` holds exactly when `hay` decomposes as `nd ++ t`. -/
theorem startsWithSeq_iff : ∀ (nd hay : List Char),
    startsWithSeq hay nd = true ↔ ∃ t, hay = nd ++ t
  | [], hay => by simp [startsWithSeq]
  | b :: bs, [] => by simp [startsWithSeq]
  | b :: bs, a :: hay => by
    rw [startsWithSeq, Bool.and_eq_true, beq_iff_eq, startsWithSeq_iff bs hay]
    constructor
    · rintro ⟨rfl, t, rfl⟩
      exact ⟨t, rfl⟩
    · rintro ⟨t, ht⟩
      injection ht with h1 h2
      exact ⟨h1, t, h2⟩

/-- `containsSeq hay nd` holds exactly when `nd` occurs contiguously in
`hay`, i.e. `hay = l ++ nd ++ r` for some `l`, `r`. -/
theorem containsSeq_iff : ∀ (hay nd : List Char),
    containsSeq hay nd = true ↔ ∃ l r, hay = l ++ nd ++ r
  | [], nd => by
    cases nd with
    | nil => simp [containsSeq]
    | cons b bs => simp [containsSeq, List.isEmpty]
  | a :: hay, nd => by
    rw [containsSeq, Bool.or_eq_true, startsWithSeq_iff, containsSeq_iff hay nd]
    constructor
    · rintro (⟨t, ht⟩ | ⟨l, r, h⟩)
      · exact ⟨[], t, by simpa using ht⟩
      · exact ⟨a :: l, r, by simp [h]⟩
    · rintro ⟨l, r, h⟩
      cases l with
      | nil => exact Or.inl ⟨r, by simpa using h⟩
      | cons x l =>
        simp only [List.cons_append] at h
        injection h with h1 h2
        exact Or.inr ⟨l, r, h2⟩

/-- A non-empty character sequence never occurs in the empty sequence. -/
theorem containsSeq_nil_left (nd : List Char) (h : nd ≠ []) :
    containsSeq [] nd = false := by
  cases nd with
  | nil => exact absurd rfl h
  | cons b bs => simp [containsSeq, List.isEmpty]

/-- A section's `found` flag holds exactly when some keyword of the section
matches the lowercased document. -/
theorem checkSection_found_iff (scoring : List (String × Nat)) (prd_lower : String)
    (s : RubricSection) :
    (checkSection scoring prd_lower s).found = true ↔
      ∃ kw ∈ s.keywords, strContainsSub prd_lower (strLower kw) = true := by
  simp only [checkSection, decide_eq_true_eq]
  rw [List.length_pos_iff_exists_mem]
  constructor
  · rintro ⟨kw, hkw⟩
    rw [List.mem_filter] at hkw
    exact ⟨kw, hkw.1, hkw.2⟩
  · rintro ⟨kw, hmem, hmatch⟩
    exact ⟨kw, List.mem_filter.mpr ⟨hmem, hmatch⟩⟩

/-- A section's score is its severity weight when found and `0` otherwise. -/
theorem checkSection_score (scoring : List (String × Nat)) (prd_lower : String)
    (s : RubricSection) :
    (checkSection scoring prd_lower s).score =
      if (checkSection scoring prd_lower s).found then sectionWeight scoring s else 0 := rfl

/-- The two components of `validate`, spelled out. -/
theorem validate_eq (scoring : List (String × Nat)) (sections : List RubricSection)
    (prd_text : String) :
    validate scoring sections prd_text =
      (sections.map (checkSection scoring (strLower prd_text)),
       if possibleTotal scoring sections > 0 then
         earnedTotal (sections.map (checkSection scoring (strLower prd_text))) * 100 /
           possibleTotal scoring sections
       else 0) := rfl

/-- With a positive possible total, the overall score is the truncated
percentage of earned over possible. -/
theorem validate_snd_eq (scoring : List (String × Nat)) (sections : List RubricSection)
    (prd : String) (hpos : 0 < possibleTotal scoring sections) :
    (validate scoring sections prd).2 =
      earnedTotal (sections.map (checkSection scoring (strLower prd))) * 100 /
        possibleTotal scoring sections := by
  rw [validate_eq]
  exact if_pos hpos

/-- When every section is required, the earned total never exceeds the
possible total. -/
theorem earnedTotal_le_possibleTotal (scoring : List (String × Nat))
    (sections : List RubricSection) (prd : String)
    (hreq : ∀ s ∈ sections, s.required = true) :
    earnedTotal (sections.map (checkSection scoring (strLower prd))) ≤
      possibleTotal scoring sections := by
  rw [earnedTotal, possibleTotal, List.map_map]
  refine List.sum_le_sum fun s hs => ?_
  simp only [Function.comp_apply]
  rw [checkSection_score, hreq s hs, if_pos rfl]
  split
  · exact le_refl _
  · exact Nat.zero_le _

/-- Filtering with a predicate that is false on some member strictly shrinks
a list. -/
theorem length_filter_lt_of_mem {α : Type} (p : α → Bool) :
    ∀ (l : List α) (a : α), a ∈ l → p a = false → (l.filter p).length < l.length := by
  intro l
  induction l with
  | nil => intro a ha _; cases ha
  | cons b t ih =>
    intro a ha hpa
    rcases List.mem_cons.mp ha with rfl | hat
    · rw [List.filter_cons, hpa]
      exact Nat.lt_succ_of_le (List.length_filter_le p t)
    · rw [List.filter_cons]
      split
      · exact Nat.succ_lt_succ (ih a hat hpa)
      · exact Nat.lt_succ_of_lt (ih a hat hpa)

/-- Membership characterization of the four buckets of `format_report`. -/
theorem format_report_mem_buckets (results : List ValidationResult) (score : Nat)
    (name : String) :
    ((name ∈ (format_report results score).missing_medium) ↔
      ∃ r ∈ results, r.found = false ∧ r.severity = "medium" ∧ r.section_name = name)
    ∧ ((name ∈ (format_report results score).missing_critical) ↔
      ∃ r ∈ results, r.found = false ∧ r.required = true ∧ r.severity = "critical" ∧
        r.section_name = name)
    ∧ ((name ∈ (format_report results score).missing_high) ↔
      ∃ r ∈ results, r.found = false ∧ r.required = true ∧ r.severity = "high" ∧
        r.section_name = name)
    ∧ ((name ∈ (format_report results score).found_sections) ↔
      ∃ r ∈ results, r.found = true ∧ r.section_name = name) := by
  refine ⟨?_, ?_, ?_, ?_⟩ <;>
    simp [format_report, List.mem_map, List.mem_filter, Bool.and_eq_true,
      Bool.not_eq_true', beq_iff_eq, and_assoc]

/-! ### The claims -/

/-- C1, counterexample: the claimed bound `overall_score ≤ 100` fails.  A
rubric with a required critical section (weight 10) and an optional high
section (weight 90), both matched by the document `"a"`, has
`possible_total = 10 > 0` yet `overall_score = 1000 > 100`: the optional
found section inflates the earned total past the required-only denominator. -/
theorem C1_counterexample_score_above_100 :
    0 < possibleTotal [("critical_weight", 10), ("high_weight", 90)]
        [⟨"A", true, "critical", ["a"]⟩, ⟨"B", false, "high", ["a"]⟩] ∧
    100 < (validate [("critical_weight", 10), ("high_weight", 90)]
        [⟨"A", true, "critical", ["a"]⟩, ⟨"B", false, "high", ["a"]⟩] "a").2 := by
  decide

/-- C1, amended: for every document and every rubric whose possible total is
positive and all of whose sections are required (so no optional section can
inflate the earned total), the overall score returned by `validate` satisfies
`0 ≤ overall_score ≤ 100`. -/
theorem C1_amended_score_bounds (scoring : List (String × Nat))
    (sections : List RubricSection) (prd : String)
    (hreq : ∀ s ∈ sections, s.required = true)
    (hpos : 0 < possibleTotal scoring sections) :
    0 ≤ (validate scoring sections prd).2 ∧ (validate scoring sections prd).2 ≤ 100 := by
  refine ⟨Nat.zero_le _, ?_⟩
  rw [validate_snd_eq scoring sections prd hpos]
  have hle := earnedTotal_le_possibleTotal scoring sections prd hreq
  calc earnedTotal (sections.map (checkSection scoring (strLower prd))) * 100 /
        possibleTotal scoring sections
      ≤ possibleTotal scoring sections * 100 / possibleTotal scoring sections :=
        Nat.div_le_div_right (Nat.mul_le_mul_right 100 hle)
    _ = 100 := Nat.mul_div_cancel_left 100 hpos

/-- C1, witness: the amended bound holds at a concrete all-required rubric. -/
theorem C1_witness_score_bounds :
    ((∀ s ∈ [(⟨"A", true, "critical", ["x"]⟩ : RubricSection)], s.required = true) ∧
      0 < possibleTotal [("critical_weight", 40)] [⟨"A", true, "critical", ["x"]⟩]) ∧
    (0 ≤ (validate [("critical_weight", 40)] [⟨"A", true, "critical", ["x"]⟩] "x").2 ∧
      (validate [("critical_weight", 40)] [⟨"A", true, "critical", ["x"]⟩] "x").2 ≤ 100) :=
  ⟨⟨by decide, by decide⟩, C1_amended_score_bounds _ _ _ (by decide) (by decide)⟩

/-- C2, counterexample: the overall score is not the exact integer truncation
of `earned_total / possible_total * 100` for every document and rubric.  The
rubric with required critical weight 71 (missed) and required high weight 29
(found) on document `"beta"` reaches `earned_total = 29`,
`possible_total = 100`; exact truncation gives `29 * 100 / 100 = 29`, but the
program's double-precision evaluation `int(29 / 100 * 100)` yields `28`
(the nearest double to `29 / 100` lies below the exact ratio, and the
rounded product is `28.999999999999996`). -/
theorem C2_counterexample_float_vs_exact :
    earnedTotal (validate [("critical_weight", 71), ("high_weight", 29)]
      [⟨"A", true, "critical", ["alpha"]⟩, ⟨"B", true, "high", ["beta"]⟩] "beta").1 = 29 ∧
    possibleTotal [("critical_weight", 71), ("high_weight", 29)]
      [⟨"A", true, "critical", ["alpha"]⟩, ⟨"B", true, "high", ["beta"]⟩] = 100 ∧
    pyFloatScorePct 29 100 = 28 ∧
    29 * 100 / 100 = 29 ∧
    pyFloatScorePct 29 100 ≠ 29 * 100 / 100 := by
  decide

/-- C2, amended: the program evaluates `earned_total / possible_total * 100`
in double precision before truncating toward zero, which can fall short of
exact integer truncation; at the spec's concrete scenario — required critical
section (weight 40, keyword `"problem statement"`) found and required high
section (weight 20, keyword `"success metrics"`) missed in the document
`"This covers the Problem Statement in depth."` — the totals are
`earned_total = 40`, `possible_total = 60`, and the double-precision
evaluation agrees with exact truncation: both score exactly `66`. -/
theorem C2_amended_float_scenario :
    pyFloatScorePct 40 60 = 66 ∧
    40 * 100 / 60 = 66 ∧
    earnedTotal (validate [("critical_weight", 40), ("high_weight", 20)]
      [⟨"Problem", true, "critical", ["problem statement"]⟩,
       ⟨"Metrics", true, "high", ["success metrics"]⟩]
      "This covers the Problem Statement in depth.").1 = 40 ∧
    possibleTotal [("critical_weight", 40), ("high_weight", 20)]
      [⟨"Problem", true, "critical", ["problem statement"]⟩,
       ⟨"Metrics", true, "high", ["success metrics"]⟩] = 60 ∧
    (validate [("critical_weight", 40), ("high_weight", 20)]
      [⟨"Problem", true, "critical", ["problem statement"]⟩,
       ⟨"Metrics", true, "high", ["success metrics"]⟩]
      "This covers the Problem Statement in depth.").2 = 66 := by
  decide

/-- C3: a zero possible total yields `overall_score = 0` (no division-by-zero
error: `validate` is total), and the empty rubric yields an empty results
list, so every formatter bucket is empty. -/
theorem C3_zero_possible_total :
    (∀ (scoring : List (String × Nat)) (sections : List RubricSection) (prd : String),
      possibleTotal scoring sections = 0 → (validate scoring sections prd).2 = 0)
  ∧ (∀ (scoring : List (String × Nat)) (prd : String),
      validate scoring [] prd = ([], 0) ∧
      (format_report (validate scoring [] prd).1
        (validate scoring [] prd).2).missing_critical = [] ∧
      (format_report (validate scoring [] prd).1
        (validate scoring [] prd).2).missing_high = [] ∧
      (format_report (validate scoring [] prd).1
        (validate scoring [] prd).2).missing_medium = [] ∧
      (format_report (validate scoring [] prd).1
        (validate scoring [] prd).2).found_sections = []) := by
  refine ⟨fun scoring sections prd h => ?_, fun scoring prd => ⟨rfl, rfl, rfl, rfl, rfl⟩⟩
  rw [validate_eq]
  simp [h]

/-- C3, witness: a rubric whose only section is optional has possible total
`0` and scores `0` even though the section is found. -/
theorem C3_witness_zero_possible :
    possibleTotal [("critical_weight", 5)] [⟨"A", false, "critical", ["a"]⟩] = 0 ∧
    (validate [("critical_weight", 5)] [⟨"A", false, "critical", ["a"]⟩] "a").2 = 0 :=
  ⟨by decide, C3_zero_possible_total.1 _ _ _ (by decide)⟩

/-- C4: a section's `found` flag is true exactly when some keyword of the
section occurs case-insensitively as a substring of the document (the
lowercased keyword occurs contiguously in the lowercased document); the
results of `validate` are exactly the per-section checks; a document
containing `"API Design"` matches the keyword `"api design"`; and a section
with no keywords is never found. -/
theorem C4_found_iff_case_insensitive_substring :
    (∀ (scoring : List (String × Nat)) (sections : List RubricSection) (prd : String),
      (validate scoring sections prd).1 = sections.map (checkSection scoring (strLower prd)))
  ∧ (∀ (scoring : List (String × Nat)) (prd : String) (s : RubricSection),
      ((checkSection scoring (strLower prd) s).found = true ↔
        ∃ kw ∈ s.keywords, ∃ l r, (strLower prd).data = l ++ (strLower kw).data ++ r))
  ∧ (∀ (scoring : List (String × Nat)) (prd : String) (s : RubricSection),
      s.keywords = [] → (checkSection scoring (strLower prd) s).found = false)
  ∧ (checkSection [] (strLower "See the API Design section.")
      ⟨"Design", true, "high", ["api design"]⟩).found = true := by
  refine ⟨fun _ _ _ => rfl, fun scoring prd s => ?_, fun scoring prd s h => ?_, by decide⟩
  · rw [checkSection_found_iff]
    refine exists_congr fun kw => and_congr_right fun _ => ?_
    rw [strContainsSub, containsSeq_iff]
  · simp [checkSection, h]

/-- C4, witness: the empty-keyword conjunct applied at a concrete section. -/
theorem C4_witness_empty_keywords :
    (⟨"S", true, "high", []⟩ : RubricSection).keywords = [] ∧
    (checkSection [] (strLower "any document") ⟨"S", true, "high", []⟩).found = false :=
  ⟨rfl, C4_found_iff_case_insensitive_substring.2.2.1 [] "any document" _ rfl⟩

/-- C5: `missing_medium` collects every missing medium-severity result
regardless of `required`, while `missing_critical` and `missing_high` also
demand `required = true`, and `found_sections` collects exactly the found
results. -/
theorem C5_bucket_rules :
    ∀ (results : List ValidationResult) (score : Nat) (name : String),
      ((name ∈ (format_report results score).missing_medium) ↔
        ∃ r ∈ results, r.found = false ∧ r.severity = "medium" ∧ r.section_name = name)
      ∧ ((name ∈ (format_report results score).missing_critical) ↔
        ∃ r ∈ results, r.found = false ∧ r.required = true ∧ r.severity = "critical" ∧
          r.section_name = name)
      ∧ ((name ∈ (format_report results score).missing_high) ↔
        ∃ r ∈ results, r.found = false ∧ r.required = true ∧ r.severity = "high" ∧
          r.section_name = name)
      ∧ ((name ∈ (format_report results score).found_sections) ↔
        ∃ r ∈ results, r.found = true ∧ r.section_name = name) :=
  fun results score name => format_report_mem_buckets results score name

/-- C6: a severity tier with no weight entry in the scoring mapping is
treated as weight `0`: the section's weight, its score, and its contribution
to the possible total are all `0`, and no error is raised (the embedding is
total). -/
theorem C6_missing_weight_defaults_zero :
    ∀ (scoring : List (String × Nat)) (prd : String) (s : RubricSection),
      scoring.lookup (weightKey s.severity) = none →
      sectionWeight scoring s = 0 ∧
      (checkSection scoring (strLower prd) s).score = 0 ∧
      (if s.required then sectionWeight scoring s else 0) = 0 := by
  intro scoring prd s h
  have hw : sectionWeight scoring s = 0 := by simp [sectionWeight, scoringGet, h]
  refine ⟨hw, ?_, by rw [hw]; split <;> rfl⟩
  rw [checkSection_score, hw]
  split <;> rfl

/-- C6, witness: an empty scoring mapping has no entry for `critical`. -/
theorem C6_witness_missing_weight :
    (([] : List (String × Nat)).lookup
        (weightKey (⟨"A", true, "critical", ["x"]⟩ : RubricSection).severity) = none) ∧
    (sectionWeight [] ⟨"A", true, "critical", ["x"]⟩ = 0 ∧
      (checkSection [] (strLower "a document") ⟨"A", true, "critical", ["x"]⟩).score = 0 ∧
      (if (⟨"A", true, "critical", ["x"]⟩ : RubricSection).required then
        sectionWeight [] ⟨"A", true, "critical", ["x"]⟩ else 0) = 0) :=
  ⟨by decide, C6_missing_weight_defaults_zero [] "a document" _ (by decide)⟩

/-- C7: the status label is `"READY FOR REVIEW"` exactly for scores `≥ 90`,
`"NEEDS IMPROVEMENT"` exactly for scores in `70..89`, and `"NOT READY"`
exactly for scores `< 70` — derived from the score alone, with inclusive
lower bounds. -/
theorem C7_status_thresholds :
    ∀ (results : List ValidationResult) (score : Nat),
      ((format_report results score).status = "READY FOR REVIEW" ↔ 90 ≤ score)
    ∧ ((format_report results score).status = "NEEDS IMPROVEMENT" ↔
        70 ≤ score ∧ score ≤ 89)
    ∧ ((format_report results score).status = "NOT READY" ↔ score < 70) := by
  intro results score
  simp only [format_report]
  split_ifs with h1 h2
  · exact ⟨iff_of_true rfl h1, iff_of_false (by decide) (by omega),
      iff_of_false (by decide) (by omega)⟩
  · exact ⟨iff_of_false (by decide) (by omega), iff_of_true rfl ⟨h2, by omega⟩,
      iff_of_false (by decide) (by omega)⟩
  · exact ⟨iff_of_false (by decide) (by omega), iff_of_false (by decide) (by omega),
      iff_of_true rfl (by omega)⟩

/-- C8, counterexample: against the empty document, a non-empty rubric whose
section carries the empty-string keyword is still found (Python's `"" in s`
is true), and the overall score is `100`, not `0` — refuting the claim that
every section of any non-empty rubric is unfound on the empty document. -/
theorem C8_counterexample_empty_keyword :
    ([⟨"A", true, "critical", [""]⟩] : List RubricSection) ≠ [] ∧
    ((validate [("critical_weight", 10)] [⟨"A", true, "critical", [""]⟩] "").1.map
      (fun r => r.found)) = [true] ∧
    (validate [("critical_weight", 10)] [⟨"A", true, "critical", [""]⟩] "").2 = 100 := by
  decide

/-- C8, amended: against the empty document, every rubric none of whose
keywords is the empty string yields `found = false` for every section and an
overall score of `0`. -/
theorem C8_amended_empty_document (scoring : List (String × Nat))
    (sections : List RubricSection)
    (hkw : ∀ s ∈ sections, ∀ kw ∈ s.keywords, kw ≠ "") :
    (∀ r ∈ (validate scoring sections "").1, r.found = false) ∧
    (validate scoring sections "").2 = 0 := by
  have hfound : ∀ s ∈ sections, (checkSection scoring (strLower "") s).found = false := by
    intro s hs
    cases hb : (checkSection scoring (strLower "") s).found with
    | false => rfl
    | true =>
      exfalso
      rw [checkSection_found_iff] at hb
      obtain ⟨kw, hkmem, hmatch⟩ := hb
      have hkne : (strLower kw).data ≠ [] := by
        intro hd
        have : kw.data = [] := List.map_eq_nil_iff.mp hd
        exact hkw s hs kw hkmem (String.ext (by simp [this]))
      rw [strContainsSub] at hmatch
      have : containsSeq (strLower "").data (strLower kw).data = false :=
        containsSeq_nil_left _ hkne
      rw [this] at hmatch
      cases hmatch
  constructor
  · intro r hr
    have h1 : (validate scoring sections "").1 =
        sections.map (checkSection scoring (strLower "")) := rfl
    rw [h1] at hr
    obtain ⟨s, hs, rfl⟩ := List.mem_map.mp hr
    exact hfound s hs
  · have hearn : earnedTotal (sections.map (checkSection scoring (strLower ""))) = 0 := by
      rw [earnedTotal, List.map_map]
      refine List.sum_eq_zero fun x hx => ?_
      obtain ⟨s, hs, rfl⟩ := List.mem_map.mp hx
      simp only [Function.comp_apply]
      rw [checkSection_score, hfound s hs]
      rfl
    rw [validate_eq]
    show (if possibleTotal scoring sections > 0 then
        earnedTotal (sections.map (checkSection scoring (strLower ""))) * 100 /
          possibleTotal scoring sections
      else 0) = 0
    rw [hearn]
    split <;> simp

/-- C8, witness: the amended statement at a concrete one-section rubric. -/
theorem C8_witness_empty_document :
    (∀ s ∈ [(⟨"A", true, "critical", ["alpha"]⟩ : RubricSection)],
      ∀ kw ∈ s.keywords, kw ≠ "") ∧
    ((∀ r ∈ (validate [("critical_weight", 10)]
        [⟨"A", true, "critical", ["alpha"]⟩] "").1, r.found = false) ∧
      (validate [("critical_weight", 10)] [⟨"A", true, "critical", ["alpha"]⟩] "").2 = 0) :=
  ⟨by decide, C8_amended_empty_document _ _ (by decide)⟩

/-- C9: appending to an already-found section a further keyword that also
matches the document leaves the section found and its score (its
contribution to the earned total) unchanged — the weight, not the number of
matched keywords, drives the score. -/
theorem C9_added_matching_keyword_keeps_score :
    ∀ (scoring : List (String × Nat)) (prd : String) (s : RubricSection) (kw : String),
      (checkSection scoring (strLower prd) s).found = true →
      strContainsSub (strLower prd) (strLower kw) = true →
      (checkSection scoring (strLower prd)
          { s with keywords := s.keywords ++ [kw] }).found = true ∧
      (checkSection scoring (strLower prd)
          { s with keywords := s.keywords ++ [kw] }).score =
        (checkSection scoring (strLower prd) s).score := by
  intro scoring prd s kw hfound hmatch
  have hfound2 : (checkSection scoring (strLower prd)
      { s with keywords := s.keywords ++ [kw] }).found = true := by
    rw [checkSection_found_iff] at hfound ⊢
    obtain ⟨kw0, hkmem, hm⟩ := hfound
    exact ⟨kw0, by simp [hkmem], hm⟩
  refine ⟨hfound2, ?_⟩
  rw [checkSection_score, checkSection_score, hfound, hfound2]
  rfl

/-- C9, witness: appending the matching keyword `"beta"` to a section already
found via `"alpha"` keeps the score. -/
theorem C9_witness_added_keyword :
    ((checkSection [("critical_weight", 10)] (strLower "alpha beta")
        ⟨"A", true, "critical", ["alpha"]⟩).found = true ∧
      strContainsSub (strLower "alpha beta") (strLower "beta") = true) ∧
    ((checkSection [("critical_weight", 10)] (strLower "alpha beta")
        ⟨"A", true, "critical", ["alpha", "beta"]⟩).found = true ∧
      (checkSection [("critical_weight", 10)] (strLower "alpha beta")
        ⟨"A", true, "critical", ["alpha", "beta"]⟩).score =
      (checkSection [("critical_weight", 10)] (strLower "alpha beta")
        ⟨"A", true, "critical", ["alpha"]⟩).score) :=
  ⟨⟨by decide, by decide⟩,
    C9_added_matching_keyword_keeps_score [("critical_weight", 10)] "alpha beta"
      ⟨"A", true, "critical", ["alpha"]⟩ "beta" (by decide) (by decide)⟩

/-- C10: a missing result whose severity is none of critical/high/medium
(e.g. `"low"`) lands in no missing bucket even when required — assuming
section names are unique (as the rubric data model requires) — and is not in
`found_sections` either; it is reflected only in the aggregate
`missing_count`, which is positive. -/
theorem C10_low_severity_in_no_bucket :
    ∀ (results : List ValidationResult) (score : Nat) (r : ValidationResult),
      r ∈ results → r.found = false →
      r.severity ≠ "critical" → r.severity ≠ "high" → r.severity ≠ "medium" →
      (∀ r2 ∈ results, r2.section_name = r.section_name → r2 = r) →
      r.section_name ∉ (format_report results score).missing_critical ∧
      r.section_name ∉ (format_report results score).missing_high ∧
      r.section_name ∉ (format_report results score).missing_medium ∧
      r.section_name ∉ (format_report results score).found_sections ∧
      0 < (format_report results score).missing_count := by
  intro results score r hmem hnf hc hh hm huniq
  obtain ⟨hmed, hcrit, hhigh, hfnd⟩ := format_report_mem_buckets results score r.section_name
  refine ⟨?_, ?_, ?_, ?_, ?_⟩
  · intro hin
    obtain ⟨r2, hr2, _, _, hsev, hname⟩ := hcrit.mp hin
    rw [huniq r2 hr2 hname] at hsev
    exact hc hsev
  · intro hin
    obtain ⟨r2, hr2, _, _, hsev, hname⟩ := hhigh.mp hin
    rw [huniq r2 hr2 hname] at hsev
    exact hh hsev
  · intro hin
    obtain ⟨r2, hr2, _, hsev, hname⟩ := hmed.mp hin
    rw [huniq r2 hr2 hname] at hsev
    exact hm hsev
  · intro hin
    obtain ⟨r2, hr2, hf, hname⟩ := hfnd.mp hin
    rw [huniq r2 hr2 hname] at hf
    rw [hnf] at hf
    cases hf
  · have hlt : (results.filter (fun r => r.found)).length < results.length :=
      length_filter_lt_of_mem _ results r hmem hnf
    have hmc : (format_report results score).missing_count =
        results.length - (results.filter (fun r => r.found)).length := rfl
    rw [hmc]
    exact Nat.sub_pos_of_lt hlt

/-- C10, witness: a required, missing, low-severity result at a concrete
input appears in no bucket but makes `missing_count` positive. -/
theorem C10_witness_low_severity :
    ((⟨"A", true, false, "low", [], 0⟩ : ValidationResult) ∈
        [(⟨"A", true, false, "low", [], 0⟩ : ValidationResult)] ∧
      (⟨"A", true, false, "low", [], 0⟩ : ValidationResult).found = false ∧
      (⟨"A", true, false, "low", [], 0⟩ : ValidationResult).severity ≠ "critical" ∧
      (⟨"A", true, false, "low", [], 0⟩ : ValidationResult).severity ≠ "high" ∧
      (⟨"A", true, false, "low", [], 0⟩ : ValidationResult).severity ≠ "medium" ∧
      (∀ r2 ∈ [(⟨"A", true, false, "low", [], 0⟩ : ValidationResult)],
        r2.section_name = (⟨"A", true, false, "low", [], 0⟩ : ValidationResult).section_name →
        r2 = ⟨"A", true, false, "low", [], 0⟩)) ∧
    ((⟨"A", true, false, "low", [], 0⟩ : ValidationResult).section_name ∉
        (format_report [⟨"A", true, false, "low", [], 0⟩] 0).missing_critical ∧
      (⟨"A", true, false, "low", [], 0⟩ : ValidationResult).section_name ∉
        (format_report [⟨"A", true, false, "low", [], 0⟩] 0).missing_high ∧
      (⟨"A", true, false, "low", [], 0⟩ : ValidationResult).section_name ∉
        (format_report [⟨"A", true, false, "low", [], 0⟩] 0).missing_medium ∧
      (⟨"A", true, false, "low", [], 0⟩ : ValidationResult).section_name ∉
        (format_report [⟨"A", true, false, "low", [], 0⟩] 0).found_sections ∧
      0 < (format_report [⟨"A", true, false, "low", [], 0⟩] 0).missing_count) :=
  ⟨⟨by decide, by decide, by decide, by decide, by decide, by decide⟩,
    C10_low_severity_in_no_bucket _ _ _ (by decide) (by decide) (by decide) (by decide)
      (by decide) (by decide)⟩

end PRD
